import Mathlib

/-!
Verification development for the dynamic-analysis-agent repository.

The Lean definitions below are a shallow embedding of the scan-orchestration
core of the repository:

* `src/src/docker_manager.py` — container provisioning and teardown;
* `src/src/tools/nmap_scanner.py`, `src/src/tools/nikto_scanner.py`,
  `src/src/tools/zap_scanner.py` — representative tool adapters;
* `src/src/api.py` — the Flask API: the background worker
  `perform_scan_async`, the registry dictionaries `active_scans` /
  `scan_results`, and the handlers `create_scan`, `list_scans`, `get_scan`,
  `delete_scan`;
* `src/main.py` — the CLI pipeline `perform_basic_tests`.

External effects (subprocess runs, HTTP requests, the wall clock) are made
explicit as oracle values supplied through environment records, so every
embedded operation is a total computable function of its environment.
-/

namespace DynAgent

/-! ## Subprocess outcomes

Each `subprocess.run` call in the source either returns a completed process
(return code, stdout, stderr) or raises `FileNotFoundError` (binary missing),
`subprocess.TimeoutExpired`, or some other exception.  The adapters branch on
exactly these cases, so the oracle for one subprocess call is: -/

inductive SubOutcome where
  | completed (returncode : Int) (stdout stderr : String)
  | fileNotFound
  | timeoutExpired
  | otherError (msg : String)
deriving DecidableEq, Repr

/-- The result dictionaries returned by the tool adapters.  All adapters in
the source return dictionaries of this shape (`success`, optional `output`,
optional `error`, nikto additionally `findings`, zap additionally
`alerts`/`alert_count`, and a `timestamp`), or `None`. -/
structure ToolResult where
  success : Bool
  output : Option String := none
  error : Option String := none
  findings : Option (List String) := none
  alertCount : Option Nat := none
  timestamp : Nat := 0
deriving DecidableEq, Repr

/-- `run_docker_container` (src/src/docker_manager.py:7-49).  Three subprocess
calls happen inside one `try`: `docker stop`, `docker rm`, `docker run`
(the first two clean up a stale container of the same name, their results are
ignored when they complete).  Any exception from any of them is caught by the
`except FileNotFoundError` / `except Exception` clauses and mapped to `False`
(lines 44-49); a completed `docker run` yields `True` iff its return code is 0
(lines 37-42).  The function therefore never raises. -/
def run_docker_container (stopOut rmOut runOut : SubOutcome) : Bool :=
  match stopOut with
  | .completed _ _ _ =>
      match rmOut with
      | .completed _ _ _ =>
          match runOut with
          | .completed rc _ _ => rc == 0
          | _ => false
      | _ => false
  | _ => false

/-! ## Findings and the result aggregation (src/src/api.py:52-88) -/

/-- One vulnerability finding, a dictionary produced by `test_vulnerabilities`.
The summary only reads `vuln.get("type", "Unknown")` (api.py:80), so the type
key is optional; `payload` stands for the remaining fields and keeps distinct
findings distinguishable. -/
structure Finding where
  type? : Option String := none
  payload : String := ""
deriving DecidableEq, Repr

/-- One entry of `results["tools"]`: the dictionary
`{"name": ..., "results": ...}` (api.py:67,71,75). -/
structure ToolRecord where
  name : String
  results : ToolResult
deriving DecidableEq, Repr

/-- `results["tools"].append({...})` happens only under `if nmap_results:`
(api.py:66-75): an adapter that returned `None` is not recorded. -/
def appendTool (acc : List ToolRecord) (name : String)
    (out : Option ToolResult) : List ToolRecord :=
  match out with
  | some r => acc ++ [⟨name, r⟩]
  | none => acc

/-- `vuln_types[vuln_type] = vuln_types.get(vuln_type, 0) + 1` on a Python
dict: update the existing entry in place, or append a new one. -/
def bumpCount (m : List (String × Nat)) (k : String) : List (String × Nat) :=
  match m with
  | [] => [(k, 1)]
  | (k', v) :: rest =>
      if k' = k then (k', v + 1) :: rest else (k', v) :: bumpCount rest k

/-- The `vuln_types` accumulation loop (api.py:78-81, identically
main.py:129-132 and tests.py:459-462). -/
def countTypes (vulns : List Finding) : List (String × Nat) :=
  vulns.foldl (fun m v => bumpCount m (v.type?.getD "Unknown")) []

/-- Lookup in the `vuln_types` dict, 0 when absent. -/
def typeCount (m : List (String × Nat)) (k : String) : Nat :=
  match m with
  | [] => 0
  | (k', v) :: rest => if k' = k then v else typeCount rest k

/-- The `results["summary"]` dictionary (api.py:83-88). -/
structure Summary where
  total_vulnerabilities : Nat
  vulnerability_types : List (String × Nat)
  tools_run : Nat
  scan_duration : Nat
deriving DecidableEq, Repr

/-- The summary computation (api.py:77-88): `total_vulnerabilities` is
`len(vulnerabilities)`, `vulnerability_types` the grouped counts, `tools_run`
is `len(results["tools"])`, and `scan_duration` is
`time.time() - results["timestamp"]` — `now` is the clock value at the moment
the summary block runs. -/
def computeSummary (vulnerabilities : List Finding) (tools : List ToolRecord)
    (timestamp now : Nat) : Summary :=
  { total_vulnerabilities := vulnerabilities.length
    vulnerability_types := countTypes vulnerabilities
    tools_run := tools.length
    scan_duration := now - timestamp }

/-! ## The scan registry and the background worker (src/src/api.py)

The registry is the pair of module-level dictionaries `active_scans` /
`scan_results` (api.py:23-24).  Each worker touches only its own scan id, and
`delete_scan` touches only the given id, so jobs with distinct ids never
interact; the model below tracks the registry entries of one scan id together
with the program counter of the worker thread that owns it. -/

/-- Job statuses appearing in the source: `"pending"` (api.py:122),
`"running"` (37), `"completed"` (92), `"failed"` (47, 99),
`"cancelled"` (179). -/
inductive Status where
  | pending | running | completed | failed | cancelled
deriving DecidableEq, Repr

def statusStr : Status → String
  | .pending => "pending"
  | .running => "running"
  | .completed => "completed"
  | .failed => "failed"
  | .cancelled => "cancelled"

/-- The `active_scans[scan_id]` dictionary created by `create_scan`
(api.py:117-124); `error` is added later by the worker (48, 100). -/
structure JobRec where
  image : String
  port : Nat
  url : Option String := none
  status : Status
  created_at : Nat
  error : Option String := none
deriving DecidableEq, Repr

/-- The `results` dictionary the worker stores into `scan_results`
(api.py:52-58, filled in 60-88).  Its keys are exactly
`target, timestamp, vulnerabilities, tools, summary`. -/
structure ApiResults where
  target : String
  timestamp : Nat
  vulnerabilities : List Finding
  tools : List ToolRecord
  summary : Summary
deriving DecidableEq, Repr

/-- The key set of the stored results dictionary, mirroring the literal at
api.py:52-58 (no other key is ever added to it). -/
def ApiResults.keys : List String :=
  ["target", "timestamp", "vulnerabilities", "tools", "summary"]

/-- Oracle environment for one run of `perform_scan_async` (api.py:26-102):
the request parameters and the outcome of every external effect the worker
performs, in program order.

`test_vulnerabilities` is imported from `src.vulnerability_scanner`, a module
not present in the repository snapshot; it is modelled as an unconstrained
oracle that either returns a list of findings or raises (`Except.error`
carries the exception message `str(e)` used at api.py:100). -/
structure Env where
  image : String := "app"
  port : Nat := 8080
  url : Option String := none
  createdAt : Nat := 0
  /-- outcome of `start_zap()` (api.py:43): a process handle or `None`. -/
  zapStarts : Option Unit := none
  /-- outcome of `run_docker_container(image, port=port)` (api.py:46). -/
  dockerOk : Bool := true
  /-- outcome of `test_vulnerabilities(base_url)` (api.py:61); see above. -/
  vulnScan : Except String (List Finding) := .ok []
  /-- outcome of `perform_nmap_scan("localhost", port)` (api.py:65). -/
  nmapOut : Option ToolResult := none
  /-- outcome of `perform_nikto_scan(base_url)` (api.py:69). -/
  niktoOut : Option ToolResult := none
  /-- outcome of `perform_zap_scan(base_url)` (api.py:73). -/
  zapOut : Option ToolResult := none
  /-- `time.time()` at `results` construction (api.py:54). -/
  startTime : Nat := 0
  /-- `time.time()` in the summary block (api.py:87). -/
  endTime : Nat := 0

/-- Program counter of the worker thread running `perform_scan_async`,
one state per statement that mutates shared state or calls an effect.
`idle` is "thread not yet spawned". -/
inductive WPC where
  | idle
  | setRunning      -- api.py:37  active_scans[id]["status"] = "running"
  | startZapStage   -- api.py:43  zap_process = start_zap()
  | provisionStage  -- api.py:46  if not run_docker_container(...)
  | failStatus      -- api.py:47  status = "failed"   (provisioning branch)
  | failError       -- api.py:48  error = "Failed to start container"; return
  | vulnStage       -- api.py:52-62  results init + test_vulnerabilities
  | nmapStage       -- api.py:65-67
  | niktoStage      -- api.py:69-71
  | zapStage        -- api.py:73-75
  | storeStage      -- api.py:77-91  summary + scan_results[id] = results
  | completeStage   -- api.py:92  status = "completed"
  | cleanupStage    -- api.py:95  cleanup_container()
  | excStatus       -- api.py:99  status = "failed"   (except branch)
  | excError        -- api.py:100 error = str(e)
  | finallyStage    -- api.py:102 stop_zap(zap_process)
  | done
deriving DecidableEq, Repr

/-- Locals of the worker thread. -/
structure WLocals where
  zapProcess : Option Unit := none
  vulns : List Finding := []
  tools : List ToolRecord := []
  pendingErr : String := ""
deriving DecidableEq, Repr

/-- Registry state for one scan id, plus the owning worker and
instrumentation counters (number of provision / teardown / zap-stop calls and
the trace of tool-adapter invocations). -/
structure SysState where
  /-- `active_scans[id]` — `none` before `create_scan`, never removed after. -/
  job : Option JobRec := none
  /-- `scan_results[id]` — set at api.py:91, removed at api.py:175. -/
  result : Option ApiResults := none
  wpc : WPC := .idle
  locals : WLocals := {}
  provisionCalls : Nat := 0
  adapterCalls : List String := []
  cleanupCalls : Nat := 0
  stopZapCalls : Nat := 0
deriving DecidableEq, Repr

def setStatus (s : SysState) (st : Status) : SysState :=
  { s with job := s.job.map fun j => { j with status := st } }

def setError (s : SysState) (e : Option String) : SysState :=
  { s with job := s.job.map fun j => { j with error := e } }

/-- The `results` value stored at api.py:91: `base_url = url or
"http://localhost:{port}"` (api.py:40; `url` absent models a falsy `url`),
`results["vulnerabilities"]` is `[] + vulnerabilities` (api.py:55,62), and the
summary block runs just before the store (api.py:77-88). -/
def mkResults (env : Env) (l : WLocals) : ApiResults :=
  { target := env.url.getD ("http://localhost:" ++ toString env.port)
    timestamp := env.startTime
    vulnerabilities := l.vulns
    tools := l.tools
    summary := computeSummary l.vulns l.tools env.startTime env.endTime }

/-- One atomic step of the worker thread (`perform_scan_async`,
api.py:26-102).  Each case is one source statement; the comments on `WPC`
give the line correspondence.  `cleanup_container` and `stop_zap` swallow
their own exceptions (docker_manager.py:58-63, zap_scanner.py:117-124), so
they are modelled as counter increments that always succeed. -/
def wstep (env : Env) (s : SysState) : SysState :=
  match s.wpc with
  | .idle => s
  | .setRunning => { setStatus s .running with wpc := .startZapStage }
  | .startZapStage =>
      { s with locals := { s.locals with zapProcess := env.zapStarts },
               wpc := .provisionStage }
  | .provisionStage =>
      { s with provisionCalls := s.provisionCalls + 1,
               wpc := if env.dockerOk then .vulnStage else .failStatus }
  | .failStatus => { setStatus s .failed with wpc := .failError }
  | .failError =>
      { setError s (some "Failed to start container") with wpc := .finallyStage }
  | .vulnStage =>
      match env.vulnScan with
      | .ok vs => { s with locals := { s.locals with vulns := vs }, wpc := .nmapStage }
      | .error e =>
          { s with locals := { s.locals with pendingErr := e }, wpc := .excStatus }
  | .nmapStage =>
      { s with adapterCalls := s.adapterCalls ++ ["nmap"],
               locals := { s.locals with
                 tools := appendTool s.locals.tools "nmap" env.nmapOut },
               wpc := .niktoStage }
  | .niktoStage =>
      { s with adapterCalls := s.adapterCalls ++ ["nikto"],
               locals := { s.locals with
                 tools := appendTool s.locals.tools "nikto" env.niktoOut },
               wpc := .zapStage }
  | .zapStage =>
      { s with adapterCalls := s.adapterCalls ++ ["zap"],
               locals := { s.locals with
                 tools := appendTool s.locals.tools "zap" env.zapOut },
               wpc := .storeStage }
  | .storeStage => { s with result := some (mkResults env s.locals), wpc := .completeStage }
  | .completeStage => { setStatus s .completed with wpc := .cleanupStage }
  | .cleanupStage => { s with cleanupCalls := s.cleanupCalls + 1, wpc := .finallyStage }
  | .excStatus => { setStatus s .failed with wpc := .excError }
  | .excError => { setError s (some s.locals.pendingErr) with wpc := .finallyStage }
  | .finallyStage => { s with stopZapCalls := s.stopZapCalls + 1, wpc := .done }
  | .done => s

/-- Run `n` worker steps. -/
def wrunN (env : Env) : Nat → SysState → SysState
  | 0, s => s
  | n + 1, s => wrunN env n (wstep env s)

/-- The longest path through `perform_scan_async` is 11 statements, so 16
steps always drive the worker to `done`. -/
def runWorker (env : Env) (s : SysState) : SysState := wrunN env 16 s

/-- `create_scan` (api.py:104-138): insert the job with status `"pending"`
and spawn the worker thread.  In the single-id model it is a no-op if the id
already exists (a second POST creates a fresh id instead). -/
def create_scan (env : Env) (s : SysState) : SysState :=
  match s.job with
  | some _ => s
  | none =>
      { s with
        job := some { image := env.image, port := env.port, url := env.url,
                      status := .pending, created_at := env.createdAt },
        wpc := .setRunning }

/-- Responses of `DELETE /scans/{id}` (api.py:171-182). -/
inductive DeleteResp where
  | deleted | cancelledResp | notFound
deriving DecidableEq, Repr

/-- `delete_scan` (api.py:171-182): an id with stored results is removed from
`scan_results` only (174-176); otherwise an id in `active_scans` gets status
`"cancelled"` (177-180); otherwise 404 (181-182). -/
def delete_scan (s : SysState) : SysState × DeleteResp :=
  match s.result with
  | some _ => ({ s with result := none }, .deleted)
  | none =>
      match s.job with
      | some j => ({ s with job := some { j with status := .cancelled } }, .cancelledResp)
      | none => (s, .notFound)

/-- Responses of `GET /scans/{id}` (api.py:155-169): the raw stored results
when the id is in `scan_results` (158-159), else a view of the
`active_scans` record (160-167), else 404. -/
inductive GetResp where
  | results (r : ApiResults)
  | jobView (image : String) (status : Status) (created_at : Nat)
      (error : Option String)
  | notFound
deriving DecidableEq, Repr

def get_scan (s : SysState) : GetResp :=
  match s.result with
  | some r => .results r
  | none =>
      match s.job with
      | some j => .jobView j.image j.status j.created_at j.error
      | none => .notFound

/-- One entry of the `GET /scans` listing (api.py:144-151):
`scan_info.get('status', 'unknown')`, `scan_info.get('image')`,
`scan_info.get('created_at', scan_info.get('timestamp'))`,
`scan_info.get('target')`. -/
structure ListEntry where
  status : String
  image : Option String
  created_at : Nat
  target : Option String
deriving DecidableEq, Repr

/-- `list_scans` (api.py:140-153) iterates `{**active_scans, **scan_results}`:
for an id present in both dictionaries the `scan_results` value wins.  A
stored results dictionary has no `status`, `image` or `created_at` key
(`ApiResults.keys`), so its entry shows status `"unknown"`, image `None` and
`created_at` falling back to `timestamp`; an active-only record has no
`target` key. -/
def list_scans (s : SysState) : List ListEntry :=
  match s.job, s.result with
  | _, some r =>
      [{ status := "unknown", image := none,
         created_at := r.timestamp, target := some r.target }]
  | some j, none =>
      [{ status := statusStr j.status, image := some j.image,
         created_at := j.created_at, target := none }]
  | none, none => []

/-- Fresh registry. -/
def initState : SysState := {}

/-! ## The CLI pipeline (src/main.py `perform_basic_tests`, lines 36-144) -/

/-- Oracle environment for one run of `perform_basic_tests`.
`connectivity` is the outcome of `requests.get(base_url, timeout=10)`
(main.py:70): the HTTP status code, or `Except.error` when the request raises
`requests.RequestException` (the target never responds).  The remaining
oracles are as in `Env`; `test_vulnerabilities` here comes from
`src.vulnerability_scanner_main`, also absent from the snapshot, so it is the
same unconstrained oracle. -/
structure MainEnv where
  baseUrl : String := "http://localhost:8080"
  startTime : Nat := 0
  connectivity : Except String Nat := .error "connection refused"
  vulnScan : Except String (List Finding) := .ok []
  nmapOut : Option ToolResult := none
  niktoOut : Option ToolResult := none
  zapOut : Option ToolResult := none
  endTime : Nat := 0

/-- The `results` dictionary of `perform_basic_tests` (main.py:48-54, with
`connectivity` added at main.py:80).  `summary` is `none` while it is still
the empty placeholder `{}` of main.py:53, and `some` once the summary block
(main.py:128-139) has replaced it. -/
structure MainResults where
  target : String
  timestamp : Nat
  vulnerabilities : List Finding
  tools : List ToolRecord
  summary : Option Summary
  connectivity : Bool
deriving DecidableEq, Repr

/-- `perform_basic_tests` (main.py:36-144).  The connectivity probe sets
`connectivity_ok` iff the request completed with a 2xx status (main.py:68-78);
on no connectivity the function returns the partial results early
(main.py:83-85).  Otherwise it runs `test_vulnerabilities` (whose exception,
if any, propagates out of the function — there is no handler), the three
adapters (each recorded only if non-`None`, main.py:95-126), and the summary
block (main.py:128-139). -/
def performBasicTests (env : MainEnv) : Except String MainResults :=
  let connectivity_ok :=
    match env.connectivity with
    | .ok code => 200 ≤ code && code < 300
    | .error _ => false
  if !connectivity_ok then
    .ok { target := env.baseUrl, timestamp := env.startTime,
          vulnerabilities := [], tools := [], summary := none,
          connectivity := false }
  else
    match env.vulnScan with
    | .error e => .error e
    | .ok vulns =>
        let tools := appendTool (appendTool (appendTool [] "nmap" env.nmapOut)
          "nikto" env.niktoOut) "zap" env.zapOut
        .ok { target := env.baseUrl, timestamp := env.startTime,
              vulnerabilities := vulns, tools := tools,
              summary := some (computeSummary vulns tools env.startTime env.endTime),
              connectivity := true }

/-! ## Helper lemmas -/

/-- Projections of the job record through the registry state. -/
def jobStatus (s : SysState) : Option Status := s.job.map (·.status)

def jobError (s : SysState) : Option String := s.job.bind (·.error)

/-- The grouping key of a finding: `vuln.get("type", "Unknown")`. -/
def findingKey (v : Finding) : String := v.type?.getD "Unknown"

theorem typeCount_bumpCount (m : List (String × Nat)) (k₀ k : String) :
    typeCount (bumpCount m k₀) k
      = typeCount m k + (if k = k₀ then 1 else 0) := by
  induction m with
  | nil =>
      by_cases h : k = k₀
      · simp [bumpCount, typeCount, h]
      · simp [bumpCount, typeCount, h, Ne.symm h]
  | cons p rest ih =>
      obtain ⟨k', v⟩ := p
      by_cases h1 : k' = k₀
      · subst h1
        by_cases h2 : k = k'
        · subst h2; simp [bumpCount, typeCount]
        · simp [bumpCount, typeCount, h2, Ne.symm h2]
      · by_cases h2 : k' = k
        · subst h2
          simp [bumpCount, typeCount, h1, ih]
        · simp [bumpCount, typeCount, h1, h2, ih]

theorem typeCount_foldl_bump (l : List Finding) (acc : List (String × Nat))
    (k : String) :
    typeCount (l.foldl (fun m v => bumpCount m (findingKey v)) acc) k
      = typeCount acc k + (l.map findingKey).count k := by
  induction l generalizing acc with
  | nil => simp
  | cons v rest ih =>
      rw [List.foldl_cons, ih, typeCount_bumpCount, List.map_cons]
      rw [List.count_cons]
      by_cases h : k = findingKey v
      · simp [h, Nat.add_comm, Nat.add_assoc, Nat.add_left_comm]
      · simp [h, Ne.symm h]

/-- Correctness of the type-count dictionary: it maps each key to the number
of findings with that key. -/
theorem typeCount_countTypes (l : List Finding) (k : String) :
    typeCount (countTypes l) k = (l.map findingKey).count k := by
  have h := typeCount_foldl_bump l [] k
  simpa [countTypes, typeCount] using h

theorem appendTool_length (acc : List ToolRecord) (name : String)
    (out : Option ToolResult) :
    (appendTool acc name out).length
      = acc.length + (if out.isSome then 1 else 0) := by
  cases out <;> simp [appendTool]

/-! ## Claims -/

/-- C1.  For every scan whose pipeline reaches the tool-adapter stage
(provisioning succeeded and `test_vulnerabilities` returned), every configured
adapter (`nmap`, `nikto`, `zap`) is invoked exactly once — regardless of each
adapter returning `None` (unavailable), a failure record, or a success
record — and the job reaches status `completed`. -/
theorem C1_adapter_failures_do_not_abort (env : Env) (vs : List Finding)
    (hd : env.dockerOk = true) (hv : env.vulnScan = .ok vs) :
    (runWorker env (create_scan env initState)).adapterCalls
        = ["nmap", "nikto", "zap"]
      ∧ jobStatus (runWorker env (create_scan env initState))
        = some .completed := by
  simp [runWorker, wrunN, wstep, create_scan, initState, setStatus, setError,
    jobStatus, hd, hv]

/-- Witness for C1 at a concrete environment in which the first two adapters
are unavailable / failing: all three are still invoked and the job
completes. -/
theorem C1_adapter_failures_do_not_abort_witness :
    (runWorker
        { dockerOk := true, vulnScan := .ok [],
          nmapOut := none,
          niktoOut := some { success := false, error := some "exit status 1" },
          zapOut := none }
        (create_scan
          { dockerOk := true, vulnScan := .ok [],
            nmapOut := none,
            niktoOut := some { success := false, error := some "exit status 1" },
            zapOut := none } initState)).adapterCalls
      = ["nmap", "nikto", "zap"] := by
  have h := C1_adapter_failures_do_not_abort
    { dockerOk := true, vulnScan := .ok [],
      nmapOut := none,
      niktoOut := some { success := false, error := some "exit status 1" },
      zapOut := none } [] rfl rfl
  exact h.1

/-- C2, counterexample.  The claimed invariant "`result` non-nil iff status
`completed`, `error` non-nil iff status `failed`" fails on reachable registry
states: (1) deleting a completed job removes only the `scan_results` entry
(api.py:174-176) while `active_scans[id]["status"]` stays `"completed"`, so
status is `completed` with no stored result; (2) between the store at
api.py:91 and the status update at api.py:92 the result is stored while the
status is still `"running"`. -/
theorem C2_invariant_counterexample :
    (jobStatus (delete_scan (runWorker {} (create_scan {} initState))).1
        = some .completed
      ∧ (delete_scan (runWorker {} (create_scan {} initState))).1.result = none)
    ∧ ((wrunN {} 8 (create_scan {} initState)).result.isSome = true
      ∧ jobStatus (wrunN {} 8 (create_scan {} initState)) = some .running) := by
  decide

/-- C2, amended.  Once the worker has terminated (which it always does within
16 steps) and no delete was interleaved, the invariant holds: the stored
result is non-nil iff the status is `completed`, and the error field is
non-nil iff the status is `failed`. -/
theorem C2_result_error_status_invariant (env : Env) :
    (runWorker env (create_scan env initState)).wpc = .done
      ∧ ((runWorker env (create_scan env initState)).result.isSome = true
          ↔ jobStatus (runWorker env (create_scan env initState))
            = some .completed)
      ∧ ((jobError (runWorker env (create_scan env initState))).isSome = true
          ↔ jobStatus (runWorker env (create_scan env initState))
            = some .failed) := by
  cases hd : env.dockerOk
  · simp [runWorker, wrunN, wstep, create_scan, initState, setStatus, setError,
      jobStatus, jobError, hd]
  · cases hv : env.vulnScan <;>
      simp [runWorker, wrunN, wstep, create_scan, initState, setStatus,
        setError, jobStatus, jobError, hd, hv]

/-- C3, counterexample.  Container teardown is not invoked on every exit path:
when the pipeline fails with an internal exception (here `test_vulnerabilities`
raising) the worker leaves through the `except` branch (api.py:97-100), which
never calls `cleanup_container` — the teardown count is 0, not 1. -/
theorem C3_teardown_counterexample :
    (runWorker { vulnScan := .error "connection refused" }
        (create_scan { vulnScan := .error "connection refused" }
          initState)).cleanupCalls = 0
      ∧ jobStatus (runWorker { vulnScan := .error "connection refused" }
          (create_scan { vulnScan := .error "connection refused" } initState))
        = some .failed := by
  decide

/-- C3, amended.  `cleanup_container` is invoked exactly once on the
successful-completion path (api.py:95) and zero times on every failure path
(provisioning failure and internal exception); the `finally` block only stops
the ZAP process (api.py:102), which does happen exactly once on every exit
path. -/
theorem C3_teardown_only_on_success (env : Env) :
    (runWorker env (create_scan env initState)).cleanupCalls
        = (if jobStatus (runWorker env (create_scan env initState))
              = some .completed then 1 else 0)
      ∧ (runWorker env (create_scan env initState)).stopZapCalls = 1 := by
  cases hd : env.dockerOk
  · simp [runWorker, wrunN, wstep, create_scan, initState, setStatus, setError,
      jobStatus, hd]
  · cases hv : env.vulnScan <;>
      simp [runWorker, wrunN, wstep, create_scan, initState, setStatus,
        setError, jobStatus, hd, hv]

/-- C4, counterexample.  `DELETE /scans/{id}` on a completed job removes only
the `scan_results` entry; the job is never removed from `active_scans`, so a
subsequent `GET /scans/{id}` finds it there and returns the active record
with status `completed` (HTTP 200), not 404. -/
theorem C4_delete_completed_counterexample :
    (delete_scan (runWorker {} (create_scan {} initState))).2
        = .deleted
      ∧ get_scan (delete_scan (runWorker {} (create_scan {} initState))).1
        = .jobView "app" .completed 0 none := by
  decide

/-- C4, amended.  `DELETE` on a known id never returns 404, but a completed
job is not removed outright: only its stored results record is deleted, the
job stays in `active_scans` with status `completed` and remains queryable.
A failed (as well as pending or running) job is soft-cancelled to status
`cancelled` and remains queryable: the pending case is `delete_scan` applied
to the freshly created job (status `"pending"`, worker not yet started), the
running case is `delete_scan` applied after the worker's first step (which
set the status to `"running"`, api.py:37) — in both, the id is not yet in
`scan_results`, so `delete_scan` takes the soft-cancel branch
(api.py:177-180).  `DELETE` and `GET` on an unknown id return 404. -/
theorem C4_delete_semantics (env : Env) :
    (delete_scan (runWorker env (create_scan env initState))).2
        ≠ .notFound
      ∧ (delete_scan (runWorker env (create_scan env initState))).1.result
        = none
      ∧ jobStatus (delete_scan (runWorker env (create_scan env initState))).1
        = some (if jobStatus (runWorker env (create_scan env initState))
              = some .completed then .completed else .cancelled)
      ∧ get_scan (delete_scan (runWorker env (create_scan env initState))).1
        ≠ .notFound
      ∧ jobStatus (create_scan env initState) = some .pending
      ∧ jobStatus (delete_scan (create_scan env initState)).1
        = some .cancelled
      ∧ get_scan (delete_scan (create_scan env initState)).1 ≠ .notFound
      ∧ jobStatus (wrunN env 1 (create_scan env initState)) = some .running
      ∧ jobStatus (delete_scan (wrunN env 1 (create_scan env initState))).1
        = some .cancelled
      ∧ get_scan (delete_scan (wrunN env 1 (create_scan env initState))).1
        ≠ .notFound
      ∧ (delete_scan initState).2 = .notFound
      ∧ get_scan initState = .notFound := by
  cases hd : env.dockerOk
  · simp [runWorker, wrunN, wstep, create_scan, initState, setStatus, setError,
      jobStatus, delete_scan, get_scan, hd]
  · cases hv : env.vulnScan <;>
      simp [runWorker, wrunN, wstep, create_scan, initState, setStatus,
        setError, jobStatus, delete_scan, get_scan, hd, hv]

/-- C5.  In the CLI pipeline (`perform_basic_tests`, src/main.py:36-144) —
the only pipeline with a connectivity probe — a target that never responds
(the probe request raises) short-circuits the scan to a normal completed
return (`Except.ok`, not a propagated error): the result has
`connectivity = false` and `vulnerabilities = []` (and no tools run, summary
left as the empty placeholder). -/
theorem C5_unreachable_target_completes (env : MainEnv) (e : String)
    (hc : env.connectivity = .error e) :
    performBasicTests env
      = .ok { target := env.baseUrl, timestamp := env.startTime,
              vulnerabilities := [], tools := [], summary := none,
              connectivity := false } := by
  simp [performBasicTests, hc]

/-- Witness for C5 at a concrete environment whose probe raises a
connection error. -/
theorem C5_unreachable_target_completes_witness :
    performBasicTests { connectivity := .error "Connection refused" }
      = .ok { target := "http://localhost:8080", timestamp := 0,
              vulnerabilities := [], tools := [], summary := none,
              connectivity := false } :=
  C5_unreachable_target_completes
    { connectivity := .error "Connection refused" } "Connection refused" rfl

/-- C6, counterexample.  A job cancelled while `pending` (status set to
`"cancelled"` by `delete_scan`, api.py:179) is not skipped by its worker: the
worker's first statement unconditionally overwrites the status with
`"running"` (api.py:37), it provisions the container anyway, and the job ends
`completed` — the `cancelled` status is overwritten by later `running` and
`completed` transitions. -/
theorem C6_cancellation_overwritten_counterexample :
    jobStatus (delete_scan (create_scan {} initState)).1 = some .cancelled
      ∧ jobStatus (wstep {} (delete_scan (create_scan {} initState)).1)
        = some .running
      ∧ jobStatus (runWorker {} (delete_scan (create_scan {} initState)).1)
        = some .completed
      ∧ (runWorker {} (delete_scan (create_scan {} initState)).1).provisionCalls
        = 1 := by
  decide

/-- C6, amended.  Cancellation is a pure status label that the worker never
reads: whatever the environment, a job cancelled before its worker starts is
still provisioned exactly once, and its final status is `completed` or
`failed`, never `cancelled`. -/
theorem C6_worker_ignores_cancellation (env : Env) :
    jobStatus (delete_scan (create_scan env initState)).1 = some .cancelled
      ∧ (runWorker env (delete_scan (create_scan env initState)).1).provisionCalls
        = 1
      ∧ jobStatus (runWorker env (delete_scan (create_scan env initState)).1)
        ≠ some .cancelled := by
  cases hd : env.dockerOk
  · simp [runWorker, wrunN, wstep, create_scan, initState, setStatus, setError,
      jobStatus, delete_scan, hd]
  · cases hv : env.vulnScan <;>
      simp [runWorker, wrunN, wstep, create_scan, initState, setStatus,
        setError, jobStatus, delete_scan, hd, hv]

/-- C7, counterexample.  On provisioning failure the claim's defensive
teardown does not happen: the worker returns from the provisioning branch
(api.py:49) without ever calling `cleanup_container`, so the teardown count
is 0. -/
theorem C7_no_defensive_teardown_counterexample :
    (runWorker { dockerOk := false }
        (create_scan { dockerOk := false } initState)).cleanupCalls = 0
      ∧ jobStatus (runWorker { dockerOk := false }
          (create_scan { dockerOk := false } initState)) = some .failed := by
  decide

/-- C7, amended.  If container provisioning fails, the job transitions to
`failed` with error exactly `"Failed to start container"`, no stored result,
zero tool adapters invoked, and the ZAP process started earlier in the same
job is still stopped via the `finally` block — but `cleanup_container` is
NOT invoked on this path.  The provisioner `run_docker_container` reports
failure as a `False` return value, never as an exception: every exceptional
subprocess outcome is caught and mapped to `False`, and a completed
`docker run` yields `True` iff its return code is 0. -/
theorem C7_provisioning_failure (env : Env) (hd : env.dockerOk = false) :
    (jobStatus (runWorker env (create_scan env initState)) = some .failed
      ∧ jobError (runWorker env (create_scan env initState))
        = some "Failed to start container"
      ∧ (runWorker env (create_scan env initState)).adapterCalls = []
      ∧ (runWorker env (create_scan env initState)).result = none
      ∧ (runWorker env (create_scan env initState)).stopZapCalls = 1
      ∧ (runWorker env (create_scan env initState)).cleanupCalls = 0)
    ∧ (∀ rm runO, run_docker_container .fileNotFound rm runO = false)
    ∧ (∀ st rm m, run_docker_container st rm (.otherError m) = false)
    ∧ (∀ a b c d e f rc so se,
        run_docker_container (.completed a b c) (.completed d e f)
          (.completed rc so se) = (rc == 0)) := by
  refine ⟨?_, ?_, ?_, ?_⟩
  · simp [runWorker, wrunN, wstep, create_scan, initState, setStatus, setError,
      jobStatus, jobError, hd]
  · intro rm runO; rfl
  · intro st rm m
    cases st <;> cases rm <;> rfl
  · intro a b c d e f rc so se; rfl

/-- Witness for C7 in an environment whose `docker run` fails. -/
theorem C7_provisioning_failure_witness :
    jobError (runWorker { dockerOk := false }
        (create_scan { dockerOk := false } initState))
      = some "Failed to start container" :=
  (C7_provisioning_failure { dockerOk := false } rfl).1.2.1

/-- C9, counterexample.  The summary is not a pure function of the
vulnerabilities and tool-results sequences alone, and recomputing it on the
same result does not yield identical output: `scan_duration` is
`time.time() - timestamp` (api.py:87), so two computations over the same
sequences at different clock values differ. -/
theorem C9_summary_not_pure_counterexample :
    computeSummary [] [] 0 1 ≠ computeSummary [] [] 0 2 := by
  decide

/-- C9, amended.  Excluding `scan_duration` (which depends on the wall
clock), the summary is a pure function of the two sequences: its other three
fields are independent of the clock, `total_vulnerabilities` is the length of
the vulnerabilities sequence, `vulnerability_types` maps each key (finding
type, default `"Unknown"`) to its number of occurrences, appending one more
finding changes the count only for that finding's key, `tools_run` is the
length of the recorded tool sequence, and that sequence contains exactly the
adapters that did not return `None` (unavailable adapters are never
recorded). -/
theorem C9_summary_functional :
    (∀ v t ts n₁ n₂,
        (computeSummary v t ts n₁).total_vulnerabilities
            = (computeSummary v t ts n₂).total_vulnerabilities
          ∧ (computeSummary v t ts n₁).vulnerability_types
            = (computeSummary v t ts n₂).vulnerability_types
          ∧ (computeSummary v t ts n₁).tools_run
            = (computeSummary v t ts n₂).tools_run)
      ∧ (∀ v t ts now,
          (computeSummary v t ts now).total_vulnerabilities = v.length)
      ∧ (∀ (v : List Finding) k,
          typeCount (countTypes v) k = (v.map findingKey).count k)
      ∧ (∀ v f k, typeCount (countTypes (v ++ [f])) k
          = typeCount (countTypes v) k
            + (if k = findingKey f then 1 else 0))
      ∧ (∀ v t ts now, (computeSummary v t ts now).tools_run = t.length)
      ∧ (∀ nm nk zp,
          (appendTool (appendTool (appendTool [] "nmap" nm) "nikto" nk)
              "zap" zp).length
            = ([nm, nk, zp].countP Option.isSome)) := by
  refine ⟨fun _ _ _ _ _ => ⟨rfl, rfl, rfl⟩, fun _ _ _ _ => rfl,
    typeCount_countTypes, ?_, fun _ _ _ _ => rfl, ?_⟩
  · intro v f k
    rw [typeCount_countTypes, typeCount_countTypes, List.map_append,
      List.count_append]
    by_cases h : k = findingKey f <;> simp [h, Ne.symm]
  · intro nm nk zp
    cases nm <;> cases nk <;> cases zp <;> rfl

/-- C10.  Once a scan completes, its stored results record (whose keys are
exactly `target, timestamp, vulnerabilities, tools, summary` — in particular
no `id` and no `status`) serves both read endpoints: `GET /scans` lists the
id from the merged view with status `"unknown"` and image `None` (the
results record overrides the active record), and `GET /scans/{id}` returns
the raw results record. -/
theorem C10_completed_scan_served_from_results (env : Env) (vs : List Finding)
    (hd : env.dockerOk = true) (hv : env.vulnScan = .ok vs) :
    ∃ r, (runWorker env (create_scan env initState)).result = some r
      ∧ get_scan (runWorker env (create_scan env initState)) = .results r
      ∧ list_scans (runWorker env (create_scan env initState))
        = [{ status := "unknown", image := none, created_at := r.timestamp,
             target := some r.target }]
      ∧ ApiResults.keys
        = ["target", "timestamp", "vulnerabilities", "tools", "summary"]
      ∧ "id" ∉ ApiResults.keys ∧ "status" ∉ ApiResults.keys := by
  refine ⟨mkResults env
    { zapProcess := env.zapStarts, vulns := vs,
      tools := appendTool (appendTool (appendTool [] "nmap" env.nmapOut)
        "nikto" env.niktoOut) "zap" env.zapOut },
    ?_, ?_, ?_, rfl, by decide, by decide⟩ <;>
  simp [runWorker, wrunN, wstep, create_scan, initState, setStatus, setError,
    get_scan, list_scans, hd, hv]

/-- Witness for C10 at a concrete successful environment. -/
theorem C10_completed_scan_served_from_results_witness :
    ∃ r, (runWorker {} (create_scan {} initState)).result = some r
      ∧ get_scan (runWorker {} (create_scan {} initState)) = .results r
      ∧ list_scans (runWorker {} (create_scan {} initState))
        = [{ status := "unknown", image := none, created_at := r.timestamp,
             target := some r.target }]
      ∧ ApiResults.keys
        = ["target", "timestamp", "vulnerabilities", "tools", "summary"]
      ∧ "id" ∉ ApiResults.keys ∧ "status" ∉ ApiResults.keys :=
  C10_completed_scan_served_from_results {} [] rfl rfl

end DynAgent
